import Mathlib

/-!
Verification development for the gawk ODBC extension
(`gawk-5.1.0/extension/odbc.c`).

The C source is shallowly embedded: the fixed-size connection and cursor
handle tables become Lean structures holding a list of slots and the free
counter, the ODBC driver calls become oracle records supplying each call's
return code and output data, and each extension entry point becomes a pure
Lean function from (oracle, state) to (result, state).  Text is modelled as
`List Char`, machine integers as `Int`/`Nat` with explicit 16-bit wrapping
where the source casts to `SQLSMALLINT`.
-/

namespace OdbcGawk

/-- ODBC return codes used by the source (`SQL_SUCCESS`,
`SQL_SUCCESS_WITH_INFO`, `SQL_ERROR`, `SQL_INVALID_HANDLE`,
`SQL_NO_DATA_FOUND`, and a catch-all for other codes). -/
inductive Retcode where
  | success
  | successWithInfo
  | error
  | invalidHandle
  | noDataFound
  | unexpected
deriving DecidableEq, Repr

/-- `MAX_ODBC_CONNECTIONS` in the source. -/
def MAX_ODBC_CONNECTIONS : Nat := 100

/-- `MAX_ODBC_CURSORS` in the source. -/
def MAX_ODBC_CURSORS : Nat := 100

/-- The connection handle table: `odbc_connection_handles` (a slot is the
C `SQLHDBC`, `none` modelling the null pointer) together with
`nb_odbc_connection_free_handles`. -/
structure ConnTable where
  handles : List (Option Nat)
  free : Nat
deriving DecidableEq, Repr

/-- The state established by `init_odbc`: all slots null, counter at
capacity. -/
def initConnTable : ConnTable :=
  ⟨List.replicate MAX_ODBC_CONNECTIONS none, MAX_ODBC_CONNECTIONS⟩

/-- The scan loop of `get_odbc_connection_handle`: index of the first null
slot. -/
def scanFree : List (Option Nat) → Option Nat
  | [] => none
  | none :: _ => some 0
  | some _ :: rest => (scanFree rest).map (· + 1)

/-- `get_odbc_connection_handle`: returns `-1` when the free counter is
zero, otherwise scans for the first null slot, decrementing the counter
only when one is found. -/
def get_odbc_connection_handle (t : ConnTable) : Int × ConnTable :=
  if t.free = 0 then (-1, t)
  else
    match scanFree t.handles with
    | some i => ((i : Int), { t with free := t.free - 1 })
    | none => (-1, t)

/-- Driver responses consumed by `ODBC_connect`: the return code of
`SQLAllocHandle(SQL_HANDLE_DBC, ...)`, the allocated `hDbc` value on
success, and the return code of `SQLConnect`. -/
structure ConnectOracle where
  allocRc : Retcode
  hDbc : Nat
  connectRc : Retcode
deriving DecidableEq, Repr

/-- `ODBC_connect` (argument-present path).  Mirrors the source exactly:
acquire a slot (`-1` on exhaustion); `TRYODBC(SQLAllocHandle)` jumps to
`Exit` returning `-1` on `SQL_ERROR` with the slot left acquired; the
`hDbc` is stored into the slot; `TRYODBC(SQLConnect)` jumps to `Exit`
returning `-1` on `SQL_ERROR`, with neither the slot nor the counter
restored. -/
def ODBC_connect (o : ConnectOracle) (t : ConnTable) : Int × ConnTable :=
  let p := get_odbc_connection_handle t
  if p.1 = -1 then (-1, p.2)
  else if o.allocRc = Retcode.error then (-1, p.2)
  else
    let t2 : ConnTable :=
      { p.2 with handles := p.2.handles.set p.1.toNat (some o.hDbc) }
    if o.connectRc = Retcode.error then (-1, t2)
    else (p.1, t2)

/-- The internal `disconnect` helper: tears down the native session if the
slot is non-null (the `SQLDisconnect`/`SQLFreeHandle` results are
ignored by the source), nulls the slot, and increments the free counter
unconditionally. -/
def disconnect (t : ConnTable) (i : Nat) : ConnTable :=
  { handles := t.handles.set i none, free := t.free + 1 }

/-- `ODBC_disconnect` facade: `-1` when the connection-handle argument
cannot be retrieved, otherwise calls `disconnect` and returns `0`. -/
def ODBC_disconnect (arg : Option Int) (t : ConnTable) : Int × ConnTable :=
  match arg with
  | none => (-1, t)
  | some h => (0, disconnect t h.toNat)

/-- `SQL_CHAR` type code. -/
def SQL_CHAR : Int := 1

/-- `SQL_VARCHAR` type code. -/
def SQL_VARCHAR : Int := 12

/-- `SQL_LONGVARCHAR` type code. -/
def SQL_LONGVARCHAR : Int := -1

/-- The gawk field delimiter used by the source
(`static const WCHAR SUBSEP = '\x01c'`). -/
def SUBSEP : Char := Char.ofNat 28

/-- One node of the source's `BINDING` linked list.  `wszBuffer` holds the
contents of the display buffer (written by the driver at fetch time) and
`bufferCap` the capacity, in `WCHAR`s, that `AllocateBindings` passed to
`malloc` for it. -/
structure BINDING where
  cDisplaySize : Int
  bufferCap : Int
  wszBuffer : List Char
  indPtr : Int
  fChar : Bool
  pColName : List Char
deriving DecidableEq, Repr

/-- The source's `struct CONN_STMT_HANDLE` (one cursor slot); the
`sNext`-linked `BINDING` chain is the Lean list, in chain order. -/
structure CONN_STMT_HANDLE where
  hDbc : Option Nat
  hStmt : Option Nat
  pBinding : List BINDING
  nb_cols : Nat
  header_length : Nat
  row_length : Int
deriving DecidableEq, Repr

/-- The all-null slot value `{NULL, NULL, NULL, 0, 0, 0}`. -/
def emptyCursorSlot : CONN_STMT_HANDLE := ⟨none, none, [], 0, 0, 0⟩

/-- The cursor handle table: `odbc_cursor_handles` with
`nb_odbc_cursor_free_handles`. -/
structure CursorTable where
  slots : List CONN_STMT_HANDLE
  free : Nat
deriving DecidableEq, Repr

/-- Cursor-table state established by `init_odbc`. -/
def initCursorTable : CursorTable :=
  ⟨List.replicate MAX_ODBC_CURSORS emptyCursorSlot, MAX_ODBC_CURSORS⟩

/-- The scan loop of `get_odbc_cursor_handle`: a slot is free iff its
`hStmt` field is null. -/
def scanFreeSlot : List CONN_STMT_HANDLE → Option Nat
  | [] => none
  | s :: rest =>
    if s.hStmt = none then some 0 else (scanFreeSlot rest).map (· + 1)

/-- `get_odbc_cursor_handle`, structured exactly like
`get_odbc_connection_handle`. -/
def get_odbc_cursor_handle (t : CursorTable) : Int × CursorTable :=
  if t.free = 0 then (-1, t)
  else
    match scanFreeSlot t.slots with
    | some i => ((i : Int), { t with free := t.free - 1 })
    | none => (-1, t)

/-- Driver responses consumed by `ODBC_cursor`: the return code of
`SQLAllocHandle(SQL_HANDLE_STMT, ...)` and the allocated statement
handle.  The result of the best-effort `SQLSetStmtAttr(SCROLLABLE)` call
is ignored by the source and is not modelled. -/
structure CursorOracle where
  allocStmtRc : Retcode
  hStmt : Nat
deriving DecidableEq, Repr

/-- `ODBC_cursor` (argument-present path): acquire a cursor slot (`-1` on
exhaustion), `TRYODBC(SQLAllocHandle)` returning `-1` on `SQL_ERROR`
with the slot left acquired, then populate the slot with the connection's
`hDbc`, the new `hStmt` and zeroed binding fields. -/
def ODBC_cursor (o : CursorOracle) (ct : ConnTable) (t : CursorTable)
    (connIdx : Nat) : Int × CursorTable :=
  let p := get_odbc_cursor_handle t
  if p.1 = -1 then (-1, p.2)
  else if o.allocStmtRc = Retcode.error then (-1, p.2)
  else
    let slot : CONN_STMT_HANDLE :=
      ⟨ct.handles.getD connIdx none, some o.hStmt, [], 0, 0, 0⟩
    (p.1, { p.2 with slots := p.2.slots.set p.1.toNat slot })

/-- Column metadata the driver reports to `AllocateBindings` through the
three `SQLColAttribute` queries (display size, concise type, column-name
length).  The embedding covers the path on which these metadata queries
succeed; each `TRYODBC` in the source aborts the loop on `SQL_ERROR`, and
the claims quantify over successfully bound columns. -/
structure ColMeta where
  cchDisplay : Int
  ssType : Int
  cchColumnNameLength : Int
deriving DecidableEq, Repr

/-- Wrapping of an `Int` into a signed 16-bit value, modelling the
source's `(SQLSMALLINT)cchDisplay` cast. -/
def toInt16 (x : Int) : Int := (x + 32768) % 65536 - 32768

/-- The body of the `AllocateBindings` loop for one column: classify the
concise type as character-family, `malloc` a display buffer of
`cchDisplay + 1` `WCHAR`s, and record
`(SQLSMALLINT)cchDisplay >= cchColumnNameLength ? ... : ...` as the
display width.  `pColName` is filled in later by `get_col_headers`;
`indPtr` is uninitialized in the source until the first fetch and is
modelled as `0`. -/
def bindOneColumn (m : ColMeta) : BINDING :=
  { cDisplaySize :=
      if toInt16 m.cchDisplay ≥ m.cchColumnNameLength then toInt16 m.cchDisplay
      else m.cchColumnNameLength
    bufferCap := m.cchDisplay + 1
    wszBuffer := []
    indPtr := 0
    fChar := m.ssType = SQL_CHAR ∨ m.ssType = SQL_VARCHAR ∨
      m.ssType = SQL_LONGVARCHAR
    pColName := [] }

/-- `AllocateBindings`: builds the binding chain in ascending statement
column order (column 1 first) and resets `*row_length` to `0` (the source
never adds to it in this function). -/
def AllocateBindings (cols : List ColMeta) : List BINDING × Int :=
  (cols.map bindOneColumn, 0)

/-- One answer of the `SQLColAttribute(SQL_DESC_NAME)` query issued per
column by `get_col_headers`: the column title and its reported byte
length. -/
structure ColHeaderInfo where
  wszTitle : List Char
  attributeLen : Nat
deriving DecidableEq, Repr

/-- `get_col_headers`: walks the binding chain in order, stores each
queried title into `pColName`, accumulates `header_length`, and sets
`nb_cols` to the number of chain nodes walked. -/
def get_col_headers (names : List ColHeaderInfo) (cur : CONN_STMT_HANDLE) :
    CONN_STMT_HANDLE :=
  let z := cur.pBinding.zip names
  let bs := z.map (fun p => { p.1 with pColName := p.2.wszTitle })
  { cur with
    pBinding := bs
    header_length := z.foldl (fun a p => a + p.2.attributeLen) 0
    nb_cols := bs.length }

/-- Driver responses consumed by `ODBC_execute`: the `SQLExecDirect`
return code, the `SQLNumResultCols` return code, the column metadata the
statement describes (`cols.length` is the column count the driver
reports), the per-column header answers, and the `SQLRowCount` call used
on the zero-column path. -/
structure ExecOracle where
  execRc : Retcode
  numColsRc : Retcode
  cols : List ColMeta
  headers : List ColHeaderInfo
  rowCountRc : Retcode
  cRowCount : Int
deriving DecidableEq, Repr

/-- Result of `ODBC_execute`: the gawk return value, the updated cursor
slot, and the return codes passed to `HandleDiagnosticRecord` (each
`TRYODBC` reports on any non-`SQL_SUCCESS` code; the
`SQL_SUCCESS_WITH_INFO` case of the switch reports explicitly). -/
structure ExecResult where
  ret : Int
  cur : CONN_STMT_HANDLE
  reported : List Retcode
deriving DecidableEq, Repr

/-- `ODBC_execute` (arguments-present path).  The switch on the
`SQLExecDirect` code: `SQL_SUCCESS_WITH_INFO` reports a diagnostic and
breaks with `cCols` still `0`; `SQL_SUCCESS` queries the column count,
then either allocates bindings and headers (`cCols > 0`) or reports the
affected-row count (`cCols = 0`); `SQL_ERROR` reports and returns `-1`;
any other code prints "Unexpected return code" and returns `-1`. -/
def ODBC_execute (o : ExecOracle) (cur : CONN_STMT_HANDLE) : ExecResult :=
  match o.execRc with
  | Retcode.successWithInfo => ⟨0, cur, [Retcode.successWithInfo]⟩
  | Retcode.success =>
    let w1 : List Retcode :=
      if o.numColsRc ≠ Retcode.success then [o.numColsRc] else []
    if o.numColsRc = Retcode.error then ⟨-1, cur, w1⟩
    else
      let cCols := o.cols.length
      if 0 < cCols then
        let b := AllocateBindings o.cols
        let cur1 := { cur with pBinding := b.1, row_length := b.2 }
        let cur2 := get_col_headers o.headers cur1
        ⟨(cCols : Int), cur2, w1⟩
      else
        let w2 : List Retcode :=
          if o.rowCountRc ≠ Retcode.success then [o.rowCountRc] else []
        if o.rowCountRc = Retcode.error then ⟨-1, cur, w1 ++ w2⟩
        else ⟨0, cur, w1 ++ w2⟩
  | Retcode.error => ⟨-1, cur, [Retcode.error]⟩
  | _ => ⟨-1, cur, []⟩

/-- A gawk value crossing the extension boundary: number, string, or
(sub)array.  Array entries are listed in insertion order; gawk converts
numeric indices to strings, so keys are strings. -/
inductive AwkVal where
  | num (n : Int)
  | str (s : List Char)
  | arr (entries : List (List Char × AwkVal))

/-- A gawk array as populated by the extension. -/
abbrev AwkArray := List (List Char × AwkVal)

/-- The per-column field text `ODBC_fetch` renders:
`indPtr > 0 ? wszBuffer : ""`. -/
def fieldOf (b : BINDING) : List Char :=
  if b.indPtr > 0 then b.wszBuffer else []

/-- The tail of the flat-row concatenation loop: every non-first column is
preceded by one `SUBSEP` byte. -/
def sepTail (f : BINDING → List Char) : List BINDING → List Char
  | [] => []
  | b :: rest => (SUBSEP :: f b) ++ sepTail f rest

/-- The flat concatenation loop of `ODBC_fetch` and
`get_column_headers_str`: first column bare, the rest `SUBSEP`-prefixed,
in chain order. -/
def sepFold (f : BINDING → List Char) : List BINDING → List Char
  | [] => []
  | b :: rest => f b ++ sepTail f rest

/-- Join of a list of fields with single `SUBSEP` separators (the
specification-level description the loop is compared against). -/
def subsepJoin : List (List Char) → List Char
  | [] => []
  | x :: xs => x ++ xs.foldr (fun y a => (SUBSEP :: y) ++ a) []

/-- The structured-row entries `ODBC_fetch` inserts in its column loop:
entry `i` (1-based, converted to a string index) maps to a fresh
one-element subarray `{columnName ↦ fieldText}`. -/
def structEntries : Nat → List BINDING → AwkArray
  | _, [] => []
  | i, b :: rest =>
    (Nat.toDigits 10 i, AwkVal.arr [(b.pColName, AwkVal.str (fieldOf b))]) ::
      structEntries (i + 1) rest

/-- Driver responses consumed by `ODBC_fetch`: the `SQLFetch` return code
and, per bound column, the indicator and buffer contents the driver
deposits. -/
structure FetchOracle where
  fetchRc : Retcode
  row : List (Int × List Char)
deriving DecidableEq, Repr

/-- `SQLFetch`'s effect on the binding chain: the driver writes each
column's indicator and display buffer. -/
def fetchWrite (bs : List BINDING) (row : List (Int × List Char)) :
    List BINDING :=
  List.zipWith (fun b (p : Int × List Char) =>
    { b with indPtr := p.1, wszBuffer := p.2 }) bs row

/-- `ODBC_fetch` (cursor-argument-present path).  With a second argument
the output array is cleared and its element `"0"` set to the cursor's
`nb_cols` before `SQLFetch` is issued.  `TRYODBC(SQLFetch)` returns `-1`
on `SQL_ERROR`; on `SQL_NO_DATA_FOUND` the empty string is returned (for
either arity); otherwise the row is serialized from the updated binding
chain in chain order, `row_length` is recomputed as the sum of the
indicators, and in two-argument mode the structured entries are inserted. -/
def ODBC_fetch (twoArg : Bool) (o : FetchOracle) (cur : CONN_STMT_HANDLE)
    (arr : AwkArray) : AwkVal × CONN_STMT_HANDLE × AwkArray :=
  let arr1 :=
    if twoArg then [(Nat.toDigits 10 0, AwkVal.num cur.nb_cols)] else arr
  if o.fetchRc = Retcode.error then (AwkVal.num (-1), cur, arr1)
  else if o.fetchRc = Retcode.noDataFound then (AwkVal.str [], cur, arr1)
  else
    let bs := fetchWrite cur.pBinding o.row
    let cur1 :=
      { cur with pBinding := bs
                 row_length := bs.foldl (fun a b => a + b.indPtr) 0 }
    let arr2 := if twoArg then arr1 ++ structEntries 1 bs else arr1
    (AwkVal.str (sepFold fieldOf bs), cur1, arr2)

/-- `get_column_headers_str`: the column titles of the binding chain,
`SUBSEP`-separated, in chain order. -/
def get_column_headers_str (cur : CONN_STMT_HANDLE) : List Char :=
  sepFold (fun b => b.pColName) cur.pBinding

/-- The `col_names` subarray filled by `get_column_headers_array`
(1-based numeric indices, chain order). -/
def colNamesEntries : Nat → List BINDING → List (List Char × AwkVal)
  | _, [] => []
  | i, b :: rest =>
    (Nat.toDigits 10 i, AwkVal.str b.pColName) :: colNamesEntries (i + 1) rest

/-- The `col_widths` subarray filled by `get_column_headers_array`. -/
def colWidthsEntries : Nat → List BINDING → List (List Char × AwkVal)
  | _, [] => []
  | i, b :: rest =>
    (Nat.toDigits 10 i, AwkVal.num b.cDisplaySize) ::
      colWidthsEntries (i + 1) rest

/-- The `bis_char` subarray filled by `get_column_headers_array` (the C
`BOOL` flag marshalled as a number). -/
def colTypesEntries : Nat → List BINDING → List (List Char × AwkVal)
  | _, [] => []
  | i, b :: rest =>
    (Nat.toDigits 10 i, AwkVal.num (if b.fChar then 1 else 0)) ::
      colTypesEntries (i + 1) rest

/-- `get_column_headers_array` (arguments-present, host-insertions-succeed
path): clears the output array, stores `nb_cols` and the three 1-based
subarrays walked off the binding chain in order, and returns the number
of chain nodes walked. -/
def get_column_headers_array (cur : CONN_STMT_HANDLE) : Int × AwkArray :=
  ((cur.pBinding.length : Int),
   [("nb_cols".toList, AwkVal.num cur.nb_cols),
    ("col_names".toList, AwkVal.arr (colNamesEntries 1 cur.pBinding)),
    ("col_widths".toList, AwkVal.arr (colWidthsEntries 1 cur.pBinding)),
    ("bis_char".toList, AwkVal.arr (colTypesEntries 1 cur.pBinding))])

/-- Driver responses consumed by `close_cursor`: the return codes of
`SQLFreeStmt(SQL_CLOSE)` and `SQLFreeHandle(SQL_HANDLE_STMT)`. -/
structure CloseCursorOracle where
  freeStmtRc : Retcode
  freeHandleRc : Retcode
deriving DecidableEq, Repr

/-- The internal `close_cursor` helper: `TRYODBC(SQLFreeStmt)` jumps to
`Exit` on `SQL_ERROR` leaving the table untouched; `SQLFreeHandle` is
issued only for a non-null `hStmt`, likewise jumping on `SQL_ERROR`;
otherwise the binding chain is freed, the slot reset to the empty value
and the free counter incremented unconditionally.  An out-of-range index
(undefined behaviour in the C) is modelled as a no-op. -/
def close_cursor (o : CloseCursorOracle) (t : CursorTable) (i : Nat) :
    CursorTable :=
  if o.freeStmtRc = Retcode.error then t
  else
    match t.slots.get? i with
    | none => t
    | some s =>
      if s.hStmt ≠ none ∧ o.freeHandleRc = Retcode.error then t
      else { slots := t.slots.set i emptyCursorSlot, free := t.free + 1 }

/-- `ODBC_close_cursor` facade: `-1` when the cursor-handle argument is
missing, otherwise `close_cursor` then `0`. -/
def ODBC_close_cursor (o : CloseCursorOracle) (arg : Option Int)
    (t : CursorTable) : Int × CursorTable :=
  match arg with
  | none => (-1, t)
  | some h => (0, close_cursor o t h.toNat)

/-- The two scroll verbs `ODBC_rewind` issues through `SQLFetchScroll`. -/
inductive ScrollOp where
  | fetchFirst
  | fetchPrior
deriving DecidableEq, Repr

/-- Driver responses consumed by `ODBC_rewind`: the return codes of the
`SQL_FETCH_FIRST` and `SQL_FETCH_PRIOR` scroll calls. -/
structure RewindOracle where
  rc1 : Retcode
  rc2 : Retcode
deriving DecidableEq, Repr

/-- `ODBC_rewind` (cursor-argument-present path): issues
`SQLFetchScroll(SQL_FETCH_FIRST)`, then `SQLFetchScroll(SQL_FETCH_PRIOR)`,
each wrapped in `TRYODBC` (its `SQL_ERROR` path jumps to `Exit` and
returns `-1`), and returns `1` when both complete.  The second component
records the scroll operations actually issued, in order. -/
def ODBC_rewind (o : RewindOracle) : Int × List ScrollOp :=
  if o.rc1 = Retcode.error then (-1, [ScrollOp.fetchFirst])
  else if o.rc2 = Retcode.error then
    (-1, [ScrollOp.fetchFirst, ScrollOp.fetchPrior])
  else (1, [ScrollOp.fetchFirst, ScrollOp.fetchPrior])

/-- `MAX_MESSAGE_LENGTH` in `HandleDiagnosticRecord`. -/
def MAX_MESSAGE_LENGTH : Nat := 1000

/-- One diagnostic record held by the driver for a handle: the five-byte
SQLSTATE, the native error code, and the full message text. -/
structure DiagRec where
  wszState : List Char
  iError : Int
  msg : List Char
deriving DecidableEq, Repr

/-- One line composed and handed to `say` by `HandleDiagnosticRecord`
(the `sprintf` output, kept componentwise). -/
structure EmitLine where
  state : List Char
  msgOut : List Char
  native : Int
deriving DecidableEq, Repr

/-- The loop body of `HandleDiagnosticRecord` for one record.  States
whose first five bytes are `01004` are suppressed.  `SQLGetDiagRec`
writes at most `BufferLength - 1` characters; the source's first fetch
passes `MAX_MESSAGE_LENGTH`, and the over-long branch allocates a buffer
of `textLengthPtr + 1` characters but passes `MAX_MESSAGE_LENGTH` as the
`BufferLength` argument of the re-fetch again, so the driver still
deposits at most `MAX_MESSAGE_LENGTH - 1` characters in either branch. -/
def reportRecord (r : DiagRec) : Option EmitLine :=
  if r.wszState.take 5 = "01004".toList then none
  else if MAX_MESSAGE_LENGTH < r.msg.length then
    some ⟨r.wszState, r.msg.take (MAX_MESSAGE_LENGTH - 1), r.iError⟩
  else
    some ⟨r.wszState, r.msg.take (MAX_MESSAGE_LENGTH - 1), r.iError⟩

/-- `HandleDiagnosticRecord`: an `SQL_INVALID_HANDLE` status prints and
returns immediately; otherwise the records are visited with a 1-based
ascending index until the driver runs out.  The driver is modelled as
answering `SQL_SUCCESS` whenever the requested record exists, which is
the assumption under which the source's `while (... == SQL_SUCCESS)` loop
visits every record. -/
def HandleDiagnosticRecord (recs : List DiagRec) (retCode : Retcode) :
    List EmitLine :=
  if retCode = Retcode.invalidHandle then []
  else recs.filterMap reportRecord

/-- Specification-level description of a 1-based string-indexed sequence of
string values, used to compare the `col_names` subarray against a plain
ordered name list. -/
def indexedStrEntries : Nat → List (List Char) → List (List Char × AwkVal)
  | _, [] => []
  | i, n :: rest =>
    (Nat.toDigits 10 i, AwkVal.str n) :: indexedStrEntries (i + 1) rest

/-- Specification-level description of the structured row form
`{i ↦ {name ↦ value}}`, used to compare the fetch output against an
ordered (name, value) list. -/
def indexedRowEntries : Nat → List (List Char × List Char) → AwkArray
  | _, [] => []
  | i, p :: rest =>
    (Nat.toDigits 10 i, AwkVal.arr [(p.1, AwkVal.str p.2)]) ::
      indexedRowEntries (i + 1) rest

/-- The field text a driver-deposited `(indicator, buffer)` pair serializes
to: the buffer when the indicator is positive, the empty segment
otherwise. -/
def renderField (p : Int × List Char) : List Char :=
  if p.1 > 0 then p.2 else []

/-- Number of occupied connection slots (non-null handle). -/
def countOccupiedConn (t : ConnTable) : Nat :=
  t.handles.countP (fun h => h.isSome)

/-- The handle-table invariant for the connection table: full capacity and
free counter plus occupied slots equal to capacity. -/
def ConnInv (t : ConnTable) : Prop :=
  t.handles.length = MAX_ODBC_CONNECTIONS ∧
  t.free + countOccupiedConn t = MAX_ODBC_CONNECTIONS

/-- Number of occupied cursor slots (non-null statement handle). -/
def countOccupiedCur (t : CursorTable) : Nat :=
  t.slots.countP (fun s => s.hStmt.isSome)

/-- The handle-table invariant for the cursor table. -/
def CurInv (t : CursorTable) : Prop :=
  t.slots.length = MAX_ODBC_CURSORS ∧
  t.free + countOccupiedCur t = MAX_ODBC_CURSORS

/-- A connect attempt whose native session allocation succeeds (handle
value `5`) and whose `SQLConnect` fails hard. -/
def connectFailOracle : ConnectOracle :=
  ⟨Retcode.success, 5, Retcode.error⟩

/-- A connect attempt that succeeds throughout. -/
def connectOkOracle : ConnectOracle :=
  ⟨Retcode.success, 5, Retcode.success⟩

/-- The connection table after one successful connect on the fresh table:
slot `0` holds handle `5`, 99 slots free. -/
def exampleConnTable : ConnTable :=
  (ODBC_connect connectOkOracle initConnTable).2

/-- Sample column metadata: display size 5, `SQL_CHAR`, name length 4. -/
def mExample : ColMeta := ⟨5, 1, 4⟩

/-- An execution whose `SQLExecDirect` answers `SQL_SUCCESS_WITH_INFO`
while the statement describes three result columns. -/
def execInfoOracle : ExecOracle :=
  ⟨Retcode.successWithInfo, Retcode.success, [mExample, mExample, mExample],
   [], Retcode.success, 0⟩

/-- A fetch positioned at end of data (`SQLFetch` answers
`SQL_NO_DATA_FOUND`). -/
def fetchEndOracle : FetchOracle := ⟨Retcode.noDataFound, []⟩

/-- A cursor slot with a live statement and two described columns. -/
def exampleCursor2 : CONN_STMT_HANDLE :=
  { emptyCursorSlot with hStmt := some 9, nb_cols := 2 }

/-- A caller-side array holding previous contents before a fetch. -/
def junkArray : AwkArray := [("x".toList, AwkVal.str "y".toList)]

/-- A 1500-character diagnostic message, exceeding the 1000-byte default
message buffer. -/
def longDiagMsg : List Char := List.replicate 1500 'a'

/-- A diagnostic record whose message exceeds the default buffer. -/
def diagLong : DiagRec := ⟨"08001".toList, 7, longDiagMsg⟩

/-- A short diagnostic record following the long one. -/
def diagNext : DiagRec := ⟨"42000".toList, 8, "next".toList⟩

/-- Column metadata whose name is longer than its display size: display
size 3, `SQL_CHAR`, name length 10. -/
def metaNarrow : ColMeta := ⟨3, 1, 10⟩

/-- First column of the order-stability example: width 6, `SQL_CHAR`, name
`id`. -/
def exMeta1 : ColMeta := ⟨6, 1, 2⟩

/-- Second column of the order-stability example: width 8, numeric type,
name `name`. -/
def exMeta2 : ColMeta := ⟨8, 4, 4⟩

/-- Header answers for the order-stability example. -/
def exHdr1 : ColHeaderInfo := ⟨"id".toList, 2⟩

/-- Header answers for the order-stability example, second column. -/
def exHdr2 : ColHeaderInfo := ⟨"name".toList, 4⟩

/-- A fully successful two-column execution. -/
def exExecOracle : ExecOracle :=
  ⟨Retcode.success, Retcode.success, [exMeta1, exMeta2], [exHdr1, exHdr2],
   Retcode.success, 0⟩

/-- A successful fetch delivering `ab` and `xyz` into the two columns. -/
def exFetchOracle : FetchOracle :=
  ⟨Retcode.success, [(2, "ab".toList), (3, "xyz".toList)]⟩

theorem scanFree_get (l : List (Option Nat)) (i : Nat)
    (h : scanFree l = some i) : l[i]? = some none := by
  induction l generalizing i with
  | nil => simp [scanFree] at h
  | cons x xs ih =>
    cases x with
    | none =>
      simp [scanFree] at h
      subst h
      simp
    | some v =>
      simp [scanFree] at h
      obtain ⟨j, hj, hji⟩ := h
      subst hji
      simpa using ih j hj

theorem scanFreeSlot_get (l : List CONN_STMT_HANDLE) (i : Nat)
    (h : scanFreeSlot l = some i) :
    ∃ s, l[i]? = some s ∧ s.hStmt = none := by
  induction l generalizing i with
  | nil => simp [scanFreeSlot] at h
  | cons x xs ih =>
    by_cases hx : x.hStmt = none
    · simp [scanFreeSlot, hx] at h
      subst h
      exact ⟨x, by simp, hx⟩
    · simp [scanFreeSlot, hx] at h
      obtain ⟨j, hj, hji⟩ := h
      subst hji
      simpa using ih j hj

theorem countP_set_shift {α : Type} (p : α → Bool) (l : List α) (i : Nat)
    (a v : α) (hget : l[i]? = some a) :
    (l.set i v).countP p + (if p a then 1 else 0) =
      l.countP p + (if p v then 1 else 0) := by
  induction l generalizing i with
  | nil => simp at hget
  | cons x xs ih =>
    cases i with
    | zero =>
      simp at hget
      subst hget
      simp [List.countP_cons]
      omega
    | succ j =>
      simp at hget
      have := ih j hget
      simp [List.countP_cons]
      omega

theorem sepTail_eq (f : BINDING → List Char) (l : List BINDING) :
    sepTail f l = (l.map f).foldr (fun y a => (SUBSEP :: y) ++ a) [] := by
  induction l with
  | nil => rfl
  | cons b rest ih => simp [sepTail, ih]

theorem sepFold_eq (f : BINDING → List Char) (l : List BINDING) :
    sepFold f l = subsepJoin (l.map f) := by
  cases l with
  | nil => rfl
  | cons b rest => simp [sepFold, subsepJoin, sepTail_eq]

theorem fetchWrite_map_pColName (bs : List BINDING)
    (row : List (Int × List Char)) (h : bs.length = row.length) :
    (fetchWrite bs row).map (fun b => b.pColName) =
      bs.map (fun b => b.pColName) := by
  induction bs generalizing row with
  | nil => rfl
  | cons b rest ih =>
    cases row with
    | nil => simp at h
    | cons p prow =>
      simp [fetchWrite] at *
      exact ih prow h

theorem fetchWrite_map_fieldOf (bs : List BINDING)
    (row : List (Int × List Char)) (h : bs.length = row.length) :
    (fetchWrite bs row).map fieldOf = row.map renderField := by
  induction bs generalizing row with
  | nil =>
    cases row with
    | nil => rfl
    | cons p prow => simp at h
  | cons b rest ih =>
    cases row with
    | nil => simp at h
    | cons p prow =>
      simp [fetchWrite, fieldOf, renderField] at *
      exact ih prow h

theorem headersSet_map_pColName (bs : List BINDING)
    (hs : List ColHeaderInfo) (h : bs.length = hs.length) :
    ((bs.zip hs).map (fun p => { p.1 with pColName := p.2.wszTitle })).map
      (fun b => b.pColName) = hs.map (fun n => n.wszTitle) := by
  induction bs generalizing hs with
  | nil =>
    cases hs with
    | nil => rfl
    | cons n ns => simp at h
  | cons b rest ih =>
    cases hs with
    | nil => simp at h
    | cons n ns =>
      simp at h
      simp [ih ns h]

theorem headersSet_length (bs : List BINDING) (hs : List ColHeaderInfo)
    (h : bs.length = hs.length) :
    ((bs.zip hs).map (fun p => { p.1 with pColName := p.2.wszTitle })).length
      = bs.length := by
  simp [List.length_zip, h]

theorem colNamesEntries_eq (i : Nat) (bs : List BINDING) :
    colNamesEntries i bs =
      indexedStrEntries i (bs.map (fun b => b.pColName)) := by
  induction bs generalizing i with
  | nil => rfl
  | cons b rest ih => simp [colNamesEntries, indexedStrEntries, ih]

theorem structEntries_eq (i : Nat) (bs : List BINDING) :
    structEntries i bs =
      indexedRowEntries i (bs.map (fun b => (b.pColName, fieldOf b))) := by
  induction bs generalizing i with
  | nil => rfl
  | cons b rest ih => simp [structEntries, indexedRowEntries, ih]

theorem toInt16_eq_self (x : Int) (h1 : -32768 ≤ x) (h2 : x ≤ 32767) :
    toInt16 x = x := by
  have hm : (x + 32768) % 65536 = x + 32768 :=
    Int.emod_eq_of_lt (by omega) (by omega)
  unfold toInt16
  omega

/-- C1: at the failing input — a connect whose native session allocation
succeeds and whose session open fails hard — `ODBC_connect` returns the
`-1` sentinel but the acquired slot is NOT released: the free counter
stays at 99 and slot 0 still holds the allocated native handle, so the
slot is leaked, contradicting the claim that the slot handle is reset to
null and the free counter restored.  When instead the native allocation
itself fails, the counter likewise stays decremented at 99. -/
theorem connect_failure_leaks_slot :
    (ODBC_connect connectFailOracle initConnTable).1 = -1 ∧
    (ODBC_connect connectFailOracle initConnTable).2.free = 99 ∧
    (ODBC_connect connectFailOracle initConnTable).2.handles.getD 0 none
      = some 5 ∧
    (ODBC_connect ⟨Retcode.error, 0, Retcode.success⟩ initConnTable).1
      = -1 ∧
    (ODBC_connect ⟨Retcode.error, 0, Retcode.success⟩ initConnTable).2.free
      = 99 := by
  decide

/-- C7: whenever the facade's disconnect operation receives a
connection-handle argument it returns `0`, never `-1`. -/
theorem disconnect_returns_zero (arg : Option Int) (t : ConnTable) (h : Int)
    (ha : arg = some h) : (ODBC_disconnect arg t).1 = 0 := by
  subst ha
  rfl

/-- Witness for C7 at the concrete handle `0` on the example table. -/
theorem disconnect_returns_zero_witness :
    (ODBC_disconnect (some 0) exampleConnTable).1 = 0 :=
  disconnect_returns_zero (some 0) exampleConnTable 0 rfl

/-- C8: `ODBC_rewind` issues the two scroll operations scroll-to-first
then scroll-to-prior, in that order; it returns `1` exactly when both
complete without a hard error, and `-1` (a non-positive value) when a
scroll call fails hard; the issued operations are always an initial part
of the two-step sequence, never reordered. -/
theorem rewind_two_scrolls (o : RewindOracle) :
    (o.rc1 ≠ Retcode.error → o.rc2 ≠ Retcode.error →
      (ODBC_rewind o).2 = [ScrollOp.fetchFirst, ScrollOp.fetchPrior] ∧
      (ODBC_rewind o).1 = 1) ∧
    ((o.rc1 = Retcode.error ∨ o.rc2 = Retcode.error) →
      (ODBC_rewind o).1 = -1 ∧ (ODBC_rewind o).1 ≤ 0) ∧
    ((ODBC_rewind o).2 = [ScrollOp.fetchFirst] ∨
      (ODBC_rewind o).2 = [ScrollOp.fetchFirst, ScrollOp.fetchPrior]) := by
  unfold ODBC_rewind
  by_cases h1 : o.rc1 = Retcode.error <;>
    by_cases h2 : o.rc2 = Retcode.error <;>
      simp [h1, h2]

/-- Witness for C8: both scrolls succeed; exactly the two operations are
issued, in order, and the result is `1`. -/
theorem rewind_two_scrolls_witness :
    (ODBC_rewind ⟨Retcode.success, Retcode.success⟩).2 =
      [ScrollOp.fetchFirst, ScrollOp.fetchPrior] ∧
    (ODBC_rewind ⟨Retcode.success, Retcode.success⟩).1 = 1 :=
  (rewind_two_scrolls ⟨Retcode.success, Retcode.success⟩).1
    (by decide) (by decide)

/-- C6 counterexample: for a column whose name (length 10) is longer than
its display size (3), the display buffer is allocated with capacity
`displaySize + 1 = 4` characters, not `max(displaySize, nameLength) + 1
= 11`; only the recorded display width uses the maximum. -/
theorem buffer_ignores_name_length :
    (bindOneColumn metaNarrow).bufferCap = 4 ∧
    ¬ ((bindOneColumn metaNarrow).bufferCap =
        max metaNarrow.cchDisplay metaNarrow.cchColumnNameLength + 1) ∧
    (bindOneColumn metaNarrow).cDisplaySize = 10 := by
  decide

/-- C6 amended: for every bound column whose reported display size is
nonnegative and fits the 16-bit field through which the source casts it,
the display buffer is allocated with capacity `displaySize + 1`
(the column-name length plays no part in the buffer size), and the
binding's recorded display width equals
`max(reported display size, column-name length)`. -/
theorem binding_buffer_and_width (m : ColMeta) (h1 : 0 ≤ m.cchDisplay)
    (h2 : m.cchDisplay ≤ 32767) :
    (bindOneColumn m).bufferCap = m.cchDisplay + 1 ∧
    (bindOneColumn m).cDisplaySize =
      max m.cchDisplay m.cchColumnNameLength := by
  have h16 : toInt16 m.cchDisplay = m.cchDisplay :=
    toInt16_eq_self m.cchDisplay (by omega) h2
  refine ⟨rfl, ?_⟩
  simp only [bindOneColumn, h16]
  split <;> omega

/-- Witness for C6 amended at the concrete narrow-column metadata. -/
theorem binding_buffer_and_width_witness :
    (bindOneColumn metaNarrow).bufferCap = metaNarrow.cchDisplay + 1 ∧
    (bindOneColumn metaNarrow).cDisplaySize =
      max metaNarrow.cchDisplay metaNarrow.cchColumnNameLength :=
  binding_buffer_and_width metaNarrow (by decide) (by decide)

/-- C2 counterexample: an execution answered `SQL_SUCCESS_WITH_INFO` on a
statement describing three result columns returns `0`, not the column
count, and builds no bindings — the "success with info" status DOES
change the outcome classification. -/
theorem execute_with_info_returns_zero :
    (ODBC_execute execInfoOracle emptyCursorSlot).ret = 0 ∧
    execInfoOracle.cols.length = 3 ∧
    ¬ ((ODBC_execute execInfoOracle emptyCursorSlot).ret = 3) ∧
    (ODBC_execute execInfoOracle emptyCursorSlot).cur.pBinding = [] ∧
    (ODBC_execute execInfoOracle emptyCursorSlot).reported
      = [Retcode.successWithInfo] := by
  decide

/-- C2 amended: `ODBC_execute` classifies a plain-success status into the
zero-column (return `0`) and positive-column (bindings built, column
count returned) outcomes and returns `-1` on a hard error or an
unexpected status; a success-with-diagnostic-information status is
reported as a warning but short-circuits the classification: execute
returns `0` with the cursor untouched, without querying the column count
or building bindings, even for a row-returning statement. -/
theorem execute_classification (o : ExecOracle) (cur : CONN_STMT_HANDLE) :
    (o.execRc = Retcode.successWithInfo →
      ODBC_execute o cur = ⟨0, cur, [Retcode.successWithInfo]⟩) ∧
    (o.execRc = Retcode.error →
      ODBC_execute o cur = ⟨-1, cur, [Retcode.error]⟩) ∧
    (o.execRc = Retcode.success → o.numColsRc ≠ Retcode.error →
      o.cols ≠ [] → o.headers.length = o.cols.length →
      (ODBC_execute o cur).ret = (o.cols.length : Int) ∧
      (ODBC_execute o cur).cur.pBinding.length = o.cols.length) ∧
    (o.execRc = Retcode.success → o.numColsRc ≠ Retcode.error →
      o.cols = [] → o.rowCountRc ≠ Retcode.error →
      (ODBC_execute o cur).ret = 0) ∧
    ((o.execRc = Retcode.noDataFound ∨ o.execRc = Retcode.invalidHandle ∨
      o.execRc = Retcode.unexpected) → (ODBC_execute o cur).ret = -1) := by
  refine ⟨?_, ?_, ?_, ?_, ?_⟩
  · intro h; simp [ODBC_execute, h]
  · intro h; simp [ODBC_execute, h]
  · intro h hnc hne hlen
    have hpos : 0 < o.cols.length := List.length_pos.mpr hne
    simp only [ODBC_execute, h]
    rw [if_neg hnc, if_pos hpos]
    refine ⟨rfl, ?_⟩
    simp [get_col_headers, AllocateBindings, List.length_zip, hlen]
  · intro h hnc hz hrc
    simp [ODBC_execute, h, hnc, hz, hrc]
  · intro h
    rcases h with h | h | h <;> simp [ODBC_execute, h]

/-- Witness for C2 amended: the with-info case at the concrete
three-column oracle. -/
theorem execute_classification_witness :
    ODBC_execute execInfoOracle emptyCursorSlot
      = ⟨0, emptyCursorSlot, [Retcode.successWithInfo]⟩ :=
  (execute_classification execInfoOracle emptyCursorSlot).1 rfl

/-- C4 counterexample: at end of data the structured (two-argument) fetch
returns the string value `""`, not the number `-1`, and the flat
(one-argument) fetch returns exactly the empty string — not a sentinel
distinct from it. -/
theorem fetch_end_returns_empty_string :
    (ODBC_fetch true fetchEndOracle exampleCursor2 junkArray).1
      = AwkVal.str [] ∧
    AwkVal.str [] ≠ AwkVal.num (-1) ∧
    (ODBC_fetch false fetchEndOracle exampleCursor2 junkArray).1
      = AwkVal.str [] := by
  refine ⟨rfl, ?_, rfl⟩
  intro h
  exact AwkVal.noConfusion h

/-- C4 amended: at end of data `ODBC_fetch` returns the empty string in
both the flat and the structured form (so an end-of-data result is not
distinguishable from a row that serializes to the empty string); the
`-1` number is produced only when `SQLFetch` fails with a hard error. -/
theorem fetch_end_of_data (twoArg : Bool) (o : FetchOracle)
    (cur : CONN_STMT_HANDLE) (arr : AwkArray) :
    (o.fetchRc = Retcode.noDataFound →
      (ODBC_fetch twoArg o cur arr).1 = AwkVal.str []) ∧
    (o.fetchRc = Retcode.error →
      (ODBC_fetch twoArg o cur arr).1 = AwkVal.num (-1)) := by
  constructor <;> intro h <;> simp [ODBC_fetch, h]

/-- Witness for C4 amended: both forms at the concrete end-of-data
oracle. -/
theorem fetch_end_of_data_witness :
    (ODBC_fetch true fetchEndOracle exampleCursor2 junkArray).1
      = AwkVal.str [] ∧
    (ODBC_fetch false fetchEndOracle exampleCursor2 junkArray).1
      = AwkVal.str [] :=
  ⟨(fetch_end_of_data true fetchEndOracle exampleCursor2 junkArray).1 rfl,
   (fetch_end_of_data false fetchEndOracle exampleCursor2 junkArray).1 rfl⟩

/-- C10: when the structured (two-argument) fetch hits end of data, the
caller's output array has nevertheless already been cleared and its
element `"0"` set to the cursor's column count before the end was
detected: whatever the array previously held, after the call it contains
exactly that one element. -/
theorem fetch_struct_end_clobbers_array (o : FetchOracle)
    (cur : CONN_STMT_HANDLE) (arr : AwkArray)
    (h : o.fetchRc = Retcode.noDataFound) :
    (ODBC_fetch true o cur arr).2.2
      = [(Nat.toDigits 10 0, AwkVal.num cur.nb_cols)] ∧
    (ODBC_fetch true o cur arr).1 = AwkVal.str [] := by
  constructor <;> simp [ODBC_fetch, h]

/-- Witness for C10: the junk array's previous contents are replaced by
the single element `"0" ↦ 2` on an end-of-data structured fetch. -/
theorem fetch_struct_end_clobbers_array_witness :
    (ODBC_fetch true fetchEndOracle exampleCursor2 junkArray).2.2
      = [(Nat.toDigits 10 0, AwkVal.num 2)] :=
  (fetch_struct_end_clobbers_array fetchEndOracle exampleCursor2 junkArray
    rfl).1

set_option maxRecDepth 8000

/-- C5: at the failing input — a record whose message is 1500 characters,
followed by a short record — the reporter emits the long record's message
truncated to 999 characters (the re-fetch into the larger buffer still
passes `MAX_MESSAGE_LENGTH` as the buffer-length argument, so the driver
truncates again); iteration does continue to the following record, but
the message is silently truncated, contradicting the claim. -/
theorem diagnostic_long_message_truncated :
    HandleDiagnosticRecord [diagLong, diagNext] Retcode.error
      = [⟨"08001".toList, List.replicate 999 'a', 7⟩,
         ⟨"42000".toList, "next".toList, 8⟩] ∧
    diagLong.msg.length = 1500 ∧
    List.replicate 999 'a' ≠ longDiagMsg := by
  have h1 : ¬ (diagLong.wszState.take 5 = "01004".toList) := by decide
  have h2 : MAX_MESSAGE_LENGTH < diagLong.msg.length := by
    show MAX_MESSAGE_LENGTH < (List.replicate 1500 'a').length
    rw [List.length_replicate]
    decide
  have h3 : diagLong.msg.take (MAX_MESSAGE_LENGTH - 1)
      = List.replicate 999 'a' := by
    show (List.replicate 1500 'a').take (MAX_MESSAGE_LENGTH - 1) = _
    rw [List.take_replicate]
    norm_num [MAX_MESSAGE_LENGTH]
  have h4 : reportRecord diagLong
      = some ⟨"08001".toList, List.replicate 999 'a', 7⟩ := by
    rw [reportRecord, if_neg h1, if_pos h2, h3]
    rfl
  have h5 : reportRecord diagNext
      = some ⟨"42000".toList, "next".toList, 8⟩ := by decide
  refine ⟨?_, ?_, ?_⟩
  · rw [HandleDiagnosticRecord, if_neg (by decide)]
    simp [List.filterMap_cons, h4, h5]
  · show (List.replicate 1500 'a').length = 1500
    rw [List.length_replicate]
  · intro h
    have hl := congrArg List.length h
    rw [List.length_replicate] at hl
    have hr : longDiagMsg.length = 1500 := by
      show (List.replicate 1500 'a').length = 1500
      rw [List.length_replicate]
    rw [hr] at hl
    omega

theorem get?_set_self {α : Type} (l : List α) (i : Nat) (a v : α)
    (h : l.get? i = some a) : (l.set i v).get? i = some v := by
  induction l generalizing i with
  | nil => simp at h
  | cons x xs ih =>
    cases i with
    | zero => rfl
    | succ j =>
      simp only [List.set_cons_succ, List.get?]
      exact ih j h

theorem countP_set_add {α : Type} (p : α → Bool) (l : List α) (i : Nat)
    (a v : α) (hget : l[i]? = some a) (hpa : p a = false)
    (hpv : p v = true) : (l.set i v).countP p = l.countP p + 1 := by
  have h := countP_set_shift p l i a v hget
  rw [hpa, hpv] at h
  simp at h
  omega

theorem countP_set_sub {α : Type} (p : α → Bool) (l : List α) (i : Nat)
    (a v : α) (hget : l[i]? = some a) (hpa : p a = true)
    (hpv : p v = false) : (l.set i v).countP p + 1 = l.countP p := by
  have h := countP_set_shift p l i a v hget
  rw [hpa, hpv] at h
  simp at h
  omega

theorem ODBC_connect_eq (o : ConnectOracle) (t : ConnTable) :
    ODBC_connect o t =
      if t.free = 0 then (-1, t)
      else
        match scanFree t.handles with
        | none => (-1, t)
        | some i =>
          if o.allocRc = Retcode.error then (-1, { t with free := t.free - 1 })
          else
            if o.connectRc = Retcode.error then
              (-1, { t with free := t.free - 1,
                            handles := t.handles.set i (some o.hDbc) })
            else
              ((i : Int), { t with free := t.free - 1,
                                   handles := t.handles.set i (some o.hDbc) }) := by
  unfold ODBC_connect get_odbc_connection_handle
  by_cases hf : t.free = 0
  · simp [hf]
  · simp only [hf, if_false, ite_false]
    cases hs : scanFree t.handles with
    | none => simp
    | some i =>
      have hne : ¬ ((i : Int) = -1) := by omega
      simp [hne]

theorem ODBC_cursor_eq (o : CursorOracle) (ct : ConnTable) (t : CursorTable)
    (c : Nat) :
    ODBC_cursor o ct t c =
      if t.free = 0 then (-1, t)
      else
        match scanFreeSlot t.slots with
        | none => (-1, t)
        | some i =>
          if o.allocStmtRc = Retcode.error then
            (-1, { t with free := t.free - 1 })
          else
            ((i : Int),
             { t with free := t.free - 1,
                      slots := t.slots.set i
                        ⟨ct.handles.getD c none, some o.hStmt, [], 0, 0, 0⟩ }) := by
  unfold ODBC_cursor get_odbc_cursor_handle
  by_cases hf : t.free = 0
  · simp [hf]
  · simp only [hf, if_false, ite_false]
    cases hs : scanFreeSlot t.slots with
    | none => simp
    | some i =>
      have hne : ¬ ((i : Int) = -1) := by omega
      simp [hne]

/-- C3 amended: both handle tables satisfy the invariant
free counter + occupied slots = capacity initially, and the invariant is
preserved by every facade operation that completes successfully —
connect, get-cursor, execute (which never changes a slot's occupancy) —
and by releases applied to occupied slots, where the slot's fields are
reset to the empty state in the same step that increments the free
counter.  (Releasing an already-empty slot is NOT a no-op for the
counter: see the counterexample.) -/
theorem handle_table_invariant :
    (ConnInv initConnTable ∧ CurInv initCursorTable) ∧
    (∀ (o : ConnectOracle) (t : ConnTable), ConnInv t →
      (ODBC_connect o t).1 ≠ -1 → ConnInv (ODBC_connect o t).2) ∧
    (∀ (t : ConnTable) (i : Nat) (x : Nat), ConnInv t →
      t.handles.get? i = some (some x) →
      ConnInv (disconnect t i) ∧
      (disconnect t i).handles.get? i = some none ∧
      (disconnect t i).free = t.free + 1) ∧
    (∀ (o : CursorOracle) (ct : ConnTable) (t : CursorTable) (c : Nat),
      CurInv t → (ODBC_cursor o ct t c).1 ≠ -1 →
      CurInv (ODBC_cursor o ct t c).2) ∧
    (∀ (o : ExecOracle) (cur : CONN_STMT_HANDLE),
      (ODBC_execute o cur).cur.hStmt = cur.hStmt) ∧
    (∀ (o : CloseCursorOracle) (t : CursorTable) (i : Nat)
      (s : CONN_STMT_HANDLE), CurInv t → t.slots.get? i = some s →
      s.hStmt ≠ none → o.freeStmtRc ≠ Retcode.error →
      o.freeHandleRc ≠ Retcode.error →
      CurInv (close_cursor o t i) ∧
      (close_cursor o t i).slots.get? i = some emptyCursorSlot ∧
      (close_cursor o t i).free = t.free + 1) := by
  refine ⟨⟨⟨by decide, by decide⟩, ⟨by decide, by decide⟩⟩, ?_, ?_, ?_, ?_, ?_⟩
  · -- successful connect preserves the invariant
    intro o t hInv hret
    rw [ODBC_connect_eq] at hret ⊢
    by_cases hf : t.free = 0
    · simp [hf] at hret
    · simp only [hf, ite_false, if_false] at hret ⊢
      cases hs : scanFree t.handles with
      | none => simp [hs] at hret
      | some i =>
        simp only [hs] at hret ⊢
        by_cases ha : o.allocRc = Retcode.error
        · simp [ha] at hret
        · by_cases hc : o.connectRc = Retcode.error
          · simp [ha, hc] at hret
          · simp only [ha, hc, ite_false, if_false]
            have hg := scanFree_get t.handles i hs
            have hcnt := countP_set_add (fun h => h.isSome) t.handles i
              none (some o.hDbc) hg rfl rfl
            obtain ⟨hlen, hsum⟩ := hInv
            constructor
            · simpa [List.length_set] using hlen
            · simp only [countOccupiedConn] at hsum ⊢
              simp only [hcnt]
              omega
  · -- disconnect of an occupied slot
    intro t i x hInv hget
    obtain ⟨hlen, hsum⟩ := hInv
    have hcnt := countP_set_sub (fun h => h.isSome) t.handles i
      (some x) none (by simpa using hget) rfl rfl
    refine ⟨⟨by simpa [disconnect, List.length_set] using hlen, ?_⟩, ?_, rfl⟩
    · simp only [disconnect, countOccupiedConn] at hsum ⊢
      omega
    · simpa [disconnect] using
        get?_set_self t.handles i (some x) none hget
  · -- successful get-cursor preserves the invariant
    intro o ct t c hInv hret
    rw [ODBC_cursor_eq] at hret ⊢
    by_cases hf : t.free = 0
    · simp [hf] at hret
    · simp only [hf, ite_false, if_false] at hret ⊢
      cases hs : scanFreeSlot t.slots with
      | none => simp [hs] at hret
      | some i =>
        simp only [hs] at hret ⊢
        by_cases ha : o.allocStmtRc = Retcode.error
        · simp [ha] at hret
        · simp only [ha, ite_false, if_false]
          obtain ⟨s, hg, hsn⟩ := scanFreeSlot_get t.slots i hs
          have hps : s.hStmt.isSome = false := by rw [hsn]; rfl
          have hcnt := countP_set_add (fun s => s.hStmt.isSome) t.slots i
            s ⟨ct.handles.getD c none, some o.hStmt, [], 0, 0, 0⟩
            hg hps rfl
          obtain ⟨hlen, hsum⟩ := hInv
          constructor
          · simpa [List.length_set] using hlen
          · simp only [countOccupiedCur] at hsum ⊢
            simp only [hcnt]
            omega
  · -- execute never changes a slot's statement handle
    intro o cur
    obtain ⟨rc, nrc, cols, hdrs, rrc, cnt⟩ := o
    cases rc <;>
      simp only [ODBC_execute, get_col_headers] <;>
        split_ifs <;> rfl
  · -- close-cursor of an occupied slot
    intro o t i s hInv hget hocc hfs hfh
    have hset : close_cursor o t i =
        { slots := t.slots.set i emptyCursorSlot, free := t.free + 1 } := by
      unfold close_cursor
      rw [if_neg hfs, hget]
      exact if_neg (fun hand => hfh hand.2)
    obtain ⟨hlen, hsum⟩ := hInv
    have hps : s.hStmt.isSome = true := by
      cases hh : s.hStmt with
      | none => exact absurd hh hocc
      | some v => rfl
    have hcnt := countP_set_sub (fun s => s.hStmt.isSome) t.slots i
      s emptyCursorSlot (by simpa using hget) hps rfl
    refine ⟨⟨?_, ?_⟩, ?_, by rw [hset]⟩
    · rw [hset]
      simpa [List.length_set] using hlen
    · rw [hset]
      simp only [countOccupiedCur] at hsum ⊢
      omega
    · rw [hset]
      simpa using get?_set_self t.slots i s emptyCursorSlot hget

/-- C3 counterexample: applying `disconnect` to the already-empty slot `0`
of the fresh table is not a counter-preserving no-op — the free counter
is incremented to 101 while no slot is occupied, so free + occupied no
longer equals the capacity 100. -/
theorem disconnect_empty_slot_not_noop :
    initConnTable.handles.get? 0 = some none ∧
    (disconnect initConnTable 0).free = 101 ∧
    countOccupiedConn (disconnect initConnTable 0) = 0 ∧
    ¬ ((disconnect initConnTable 0).free +
        countOccupiedConn (disconnect initConnTable 0)
        = MAX_ODBC_CONNECTIONS) := by
  decide

/-- Witness for C3 amended: releasing the occupied slot `0` of the
one-connection example table preserves the invariant, resets the slot and
increments the counter. -/
theorem handle_table_invariant_witness :
    ConnInv (disconnect exampleConnTable 0) ∧
    (disconnect exampleConnTable 0).handles.get? 0 = some none ∧
    (disconnect exampleConnTable 0).free = exampleConnTable.free + 1 :=
  handle_table_invariant.2.2.1 exampleConnTable 0 5
    ⟨by decide, by decide⟩ (by decide)

/-- C9: for a successfully executed row-returning statement, column order
is stable and preserved end to end: the binding chain carries the
statement's column names in ascending statement order; the flat and array
describe-columns forms and the flat and structured fetch forms all
enumerate columns in exactly that chain order (the model functions are
pure, so repeated calls on the same cursor state return identical
results). -/
theorem column_order_stable (o : ExecOracle) (cur0 : CONN_STMT_HANDLE)
    (fo : FetchOracle) (arr : AwkArray)
    (hx : o.execRc = Retcode.success) (hnc : o.numColsRc ≠ Retcode.error)
    (hne : o.cols ≠ []) (hlen : o.headers.length = o.cols.length)
    (hfr : fo.fetchRc = Retcode.success)
    (hrow : fo.row.length = o.cols.length) :
    (ODBC_execute o cur0).cur.pBinding.map (fun b => b.pColName)
      = o.headers.map (fun n => n.wszTitle) ∧
    (ODBC_execute o cur0).cur.nb_cols = o.cols.length ∧
    (ODBC_execute o cur0).ret = (o.cols.length : Int) ∧
    get_column_headers_str (ODBC_execute o cur0).cur
      = subsepJoin (o.headers.map (fun n => n.wszTitle)) ∧
    colNamesEntries 1 (ODBC_execute o cur0).cur.pBinding
      = indexedStrEntries 1 (o.headers.map (fun n => n.wszTitle)) ∧
    (ODBC_fetch false fo (ODBC_execute o cur0).cur arr).1
      = AwkVal.str (subsepJoin (fo.row.map renderField)) ∧
    (ODBC_fetch true fo (ODBC_execute o cur0).cur arr).2.2
      = (Nat.toDigits 10 0, AwkVal.num o.cols.length) ::
          indexedRowEntries 1
            ((o.headers.map (fun n => n.wszTitle)).zip
              (fo.row.map renderField)) := by
  have hpos : 0 < o.cols.length := List.length_pos.mpr hne
  have hcur : (ODBC_execute o cur0).cur =
      get_col_headers o.headers
        { cur0 with pBinding := o.cols.map bindOneColumn, row_length := 0 } := by
    simp only [ODBC_execute, hx]
    rw [if_neg hnc, if_pos hpos]
    rfl
  have hret : (ODBC_execute o cur0).ret = (o.cols.length : Int) := by
    simp only [ODBC_execute, hx]
    rw [if_neg hnc, if_pos hpos]
  have hblen : (o.cols.map bindOneColumn).length = o.headers.length := by
    simp [hlen]
  have hbind : (ODBC_execute o cur0).cur.pBinding =
      ((o.cols.map bindOneColumn).zip o.headers).map
        (fun p => { p.1 with pColName := p.2.wszTitle }) := by
    rw [hcur]
    rfl
  have hnames : (ODBC_execute o cur0).cur.pBinding.map (fun b => b.pColName)
      = o.headers.map (fun n => n.wszTitle) := by
    rw [hbind]
    exact headersSet_map_pColName (o.cols.map bindOneColumn) o.headers hblen
  have hplen : (ODBC_execute o cur0).cur.pBinding.length = o.cols.length := by
    rw [hbind]
    rw [headersSet_length (o.cols.map bindOneColumn) o.headers hblen]
    simp
  have hnb : (ODBC_execute o cur0).cur.nb_cols = o.cols.length := by
    rw [hcur]
    simp [get_col_headers, List.length_zip, hlen]
  have hflen : (ODBC_execute o cur0).cur.pBinding.length = fo.row.length := by
    rw [hplen, hrow]
  -- the updated binding chain after the driver deposits the row
  have hwnames : (fetchWrite (ODBC_execute o cur0).cur.pBinding fo.row).map
      (fun b => b.pColName) = o.headers.map (fun n => n.wszTitle) := by
    rw [fetchWrite_map_pColName _ _ hflen, hnames]
  have hwfields : (fetchWrite (ODBC_execute o cur0).cur.pBinding fo.row).map
      fieldOf = fo.row.map renderField := by
    exact fetchWrite_map_fieldOf _ _ hflen
  have hfetch_ne : ¬ (fo.fetchRc = Retcode.error) := by
    rw [hfr]
    intro h
    exact Retcode.noConfusion h
  have hfetch_nd : ¬ (fo.fetchRc = Retcode.noDataFound) := by
    rw [hfr]
    intro h
    exact Retcode.noConfusion h
  refine ⟨hnames, hnb, hret, ?_, ?_, ?_, ?_⟩
  · rw [get_column_headers_str, sepFold_eq, hnames]
  · rw [colNamesEntries_eq, hnames]
  · rw [ODBC_fetch]
    rw [if_neg hfetch_ne, if_neg hfetch_nd]
    simp only []
    rw [sepFold_eq, hwfields]
  · rw [ODBC_fetch]
    rw [if_neg hfetch_ne, if_neg hfetch_nd]
    simp only [if_pos]
    rw [structEntries_eq]
    have hzip : (fetchWrite (ODBC_execute o cur0).cur.pBinding fo.row).map
        (fun b => (b.pColName, fieldOf b)) =
        ((o.headers.map (fun n => n.wszTitle)).zip
          (fo.row.map renderField)) := by
      rw [← hwnames, ← hwfields]
      exact (List.zip_map' _ _ _).symm
    rw [hzip, hnb]
    rfl

/-- Witness for C9 at the concrete two-column execution: the header
string and the flat fetched row enumerate the two columns in the same
statement order. -/
theorem column_order_stable_witness :
    get_column_headers_str (ODBC_execute exExecOracle emptyCursorSlot).cur
      = subsepJoin ["id".toList, "name".toList] ∧
    (ODBC_fetch false exFetchOracle
        (ODBC_execute exExecOracle emptyCursorSlot).cur []).1
      = AwkVal.str (subsepJoin ["ab".toList, "xyz".toList]) :=
  ⟨(column_order_stable exExecOracle emptyCursorSlot exFetchOracle []
      rfl (by decide) (by decide) rfl rfl rfl).2.2.2.1,
   (column_order_stable exExecOracle emptyCursorSlot exFetchOracle []
      rfl (by decide) (by decide) rfl rfl rfl).2.2.2.2.2.1⟩

end OdbcGawk
